import Mathlib

/-!
Shallow embedding of `wasabi/traceback.py`: the `TracebackPrinter` class,
which renders a title, indented body lines and a filtered, truncated stack
trail with tree-drawing connectors and optional substring highlighting.
Python strings are modelled as `String`, stack-frame 4-tuples as a structure,
and the small Python string/list primitives the code uses (`endswith` with a
tuple argument, negative slicing, `strip`, `replace`, `rsplit(sep, 1)[1]`,
substring containment) are given explicit executable definitions below.
-/

/-- Python `s * n` string repetition. -/
def strRepeat (s : String) (n : Nat) : String := String.join (List.replicate n s)

/-- Python `sub in s` substring containment, on character lists: true iff
`sep` occurs as a contiguous sublist. -/
def occursL (sep : List Char) : List Char → Bool
  | [] => sep.isEmpty
  | c :: rest => sep.isPrefixOf (c :: rest) || occursL sep rest

/-- Python `sub in s` substring containment on strings. -/
def occursStr (sep s : String) : Bool := occursL sep.toList s.toList

/-- Part of `s` after the LAST occurrence of `sep` (Python
`s.rsplit(sep, 1)[1]`), or `none` when `sep` (non-empty) does not occur.
Occurrences later in the list take precedence, matching `rsplit`. -/
def afterLastAux (sep : List Char) : List Char → Option (List Char)
  | [] => none
  | c :: rest =>
    match afterLastAux sep rest with
    | some r => some r
    | none =>
      if sep.isPrefixOf (c :: rest) then some ((c :: rest).drop sep.length)
      else none

/-- Python `s.rsplit(sep, 1)[1]` on strings; returns `s` unchanged when `sep`
does not occur (the source only calls it after an `in` check). -/
def afterLastStr (sep s : String) : String :=
  match afterLastAux sep.toList s.toList with
  | some r => r.asString
  | none => s

/-- Python `s.replace(old, new)` on character lists: replaces every
non-overlapping occurrence, scanning left to right. The source only calls it
with a non-empty `old` (the falsy-highlight guard), which this models: with
`old = []` it is the identity. -/
def replaceList (old new : List Char) : List Char → List Char
  | [] => []
  | c :: rest =>
    if !old.isEmpty && old.isPrefixOf (c :: rest) then
      new ++ replaceList old new (rest.drop (old.length - 1))
    else
      c :: replaceList old new rest
termination_by s => s.length
decreasing_by
  all_goals simp [List.length_drop]
  omega

/-- Python `s.replace(old, new)` on strings (non-empty `old`). -/
def pyReplace (s old new : String) : String :=
  (replaceList old.toList new.toList s.toList).asString

/-- Python `s.strip()`: remove leading and trailing whitespace. -/
def isPySpace (c : Char) : Bool :=
  c == ' ' || c == '\t' || c == '\n' || c == '\r' || c == '\x0B' || c == '\x0C'

/-- Python `s.strip()` on strings. -/
def pyStrip (s : String) : String :=
  (((s.toList.dropWhile isPySpace).reverse.dropWhile isPySpace).reverse).asString

/-- Python `s.endswith(tuple_of_suffixes)`: true iff `s` ends with one of the
suffixes; false for the empty tuple. -/
def endsWithAny (s : String) (sufs : List String) : Bool :=
  sufs.any (fun suf => suf.toList.isSuffixOf s.toList)

/-- Python slice `l[-a:-b]` for `a ≥ b`: start at `max 0 (len-a)`, stop at
`max 0 (len-b)` (exclusive), which natural subtraction gives directly. -/
def pySliceNeg (a b : Nat) {α : Type} (l : List α) : List α :=
  (l.drop (l.length - a)).take ((l.length - b) - (l.length - a))

/-- Modelled from the spec: the UTF-8 capability flag `NO_UTF8` lives in the
missing `wasabi.util` module ("generic string encoding helpers" are external
collaborators); modelled as a UTF-8-capable environment. -/
def NO_UTF8 : Bool := false

/-- Source: `LINE_EDGE = "└─" if not NO_UTF8 else "|_"`. -/
def LINE_EDGE : String := if !NO_UTF8 then "└─" else "|_"

/-- Source: `LINE_FORK = "├─" if not NO_UTF8 else "|__"`. -/
def LINE_FORK : String := if !NO_UTF8 then "├─" else "|__"

/-- Source: `LINE_PATH = "──" if not NO_UTF8 else "__"`. -/
def LINE_PATH : String := if !NO_UTF8 then "──" else "__"

/-- Modelled from the spec: color-name-to-code lookup inside the missing
`wasabi.util.color` collaborator ("color-code lookup/rendering" is external). -/
def fgCode (c : String) : String :=
  if c == "red" then "31"
  else if c == "blue" then "34"
  else if c == "yellow" then "33"
  else c

/-- Modelled from the spec: the missing `wasabi.util.color` collaborator,
`colorWrap(text, color, bold=false, underline=false) → string`, which "applies
terminal color/style codes": wraps `text` in an ANSI escape prefix built from
the requested styles and a reset suffix. -/
def color (text : String) (fg : Option String) (bold underline : Bool) : String :=
  let codes := (if bold then ["1"] else []) ++ (if underline then ["4"] else []) ++
    (match fg with
     | some c => [fgCode c]
     | none => [])
  "\x1b[" ++ String.intercalate ";" codes ++ "m" ++ text ++ "\x1b[0m"

/-- Modelled from the spec: the missing `wasabi.util.to_string` collaborator,
`toDisplayString(value) → string`, coercing a line number to text. -/
def to_string (n : Nat) : String := toString n

/-- The path-shortening step of `_format_traceback` (source lines 82-83):
`if self.tb_base and self.tb_base in path: path = path.rsplit(self.tb_base, 1)[1]`,
with the stored marker's Python truthiness made explicit. -/
def shortenPath (tb_base : Option String) (path : String) : String :=
  match tb_base with
  | some b => if !(b == "") && occursStr b path then afterLastStr b path else path
  | none => path

/-- One stack-frame record: the 4-tuple `(path, line, fn, text)` that
`_format_traceback` destructures. -/
structure StackFrame where
  path : String
  line : Nat
  fn : String
  text : String
  deriving DecidableEq, Repr

/-- Configuration state built by `TracebackPrinter.__init__`: colors, the
pre-built indent string, the pre-built base-path marker (`"/name/"` or none),
the excluded-suffix tuple, and the ANSI-support flag cached at construction. -/
structure TracebackPrinter where
  color_error : String
  color_tb : String
  color_highlight : String
  indent : String
  tb_base : Option String
  tb_exclude : List String
  supports_ansi : Bool
  deriving DecidableEq, Repr

/-- Embeds `TracebackPrinter.__init__`: stores the colors, builds
`indent = " " * indent`, builds `tb_base = "/{}/".format(tb_base)` when the
argument is truthy (non-`None`, non-empty) else `None`, stores the exclusion
tuple, and caches the ANSI-support flag (the `supports_ansi()` detection is an
external collaborator queried once, passed in here as `ansi`). -/
def TracebackPrinter.init (color_error color_tb color_highlight : String)
    (indent : Nat) (tb_base : Option String) (tb_exclude : List String)
    (ansi : Bool) : TracebackPrinter :=
  ⟨color_error, color_tb, color_highlight, strRepeat " " indent,
    (match tb_base with
     | some n => if n == "" then none else some ("/" ++ n ++ "/")
     | none => none),
    tb_exclude, ansi⟩

namespace TracebackPrinter

/-- Embeds `_format_user_error(text, i, highlight)`: builds the
`"  " * i + " >>>"` marker, colors it when ANSI is supported, and when a
truthy highlight is given and ANSI is supported replaces every occurrence of
the highlight in `text` by its color-wrapped form. -/
def format_user_error (self : TracebackPrinter) (text : String) (i : Nat)
    (highlight : Option String) : String :=
  let spacing := strRepeat "  " i ++ " >>>"
  let spacing :=
    if self.supports_ansi then color spacing (some self.color_error) false false
    else spacing
  let text :=
    match highlight with
    | some h =>
      if !(h == "") && self.supports_ansi then
        pyReplace text h (color h (some self.color_highlight) false false)
      else text
    | none => text
  "\n" ++ self.indent ++ "  " ++ spacing ++ " " ++ text

/-- Embeds `_format_traceback(path, line, fn, text, i, count, highlight)`:
tree connector `(LINE_EDGE if i == count-1 else LINE_FORK) + LINE_PATH * i`,
base-path shortening via `rsplit`, user-error text only on the last frame,
optional bolding/underlining, and the
`"{base_indent}{indent} {fn} [{line}] in {path}{text}"` template. -/
def format_traceback (self : TracebackPrinter) (path : String) (line : Nat)
    (fn : String) (text : String) (i count : Nat)
    (highlight : Option String) : String :=
  let tree := (if i == count - 1 then LINE_EDGE else LINE_FORK) ++ strRepeat LINE_PATH i
  let path := shortenPath self.tb_base path
  let text := if i == count - 1 then self.format_user_error text i highlight else ""
  let line := to_string line
  let fn := if self.supports_ansi then color fn none true false else fn
  let path := if self.supports_ansi then color path none false true else path
  self.indent ++ tree ++ " " ++ fn ++ " [" ++ line ++ "] in " ++ path ++ text

/-- The filter step of `_get_traceback`: drop records whose path ends with one
of the excluded suffixes. -/
def tbFiltered (self : TracebackPrinter) (tb : List StackFrame) : List StackFrame :=
  tb.filter (fun r => !(endsWithAny r.path self.tb_exclude))

/-- The selection step of `_get_traceback`: `tb_range = tb[-5:-2]` of the
filtered list. -/
def tbRange (self : TracebackPrinter) (tb : List StackFrame) : List StackFrame :=
  pySliceNeg 5 2 (self.tbFiltered tb)

/-- The per-frame rendering step of `_get_traceback`: `tb_list`, one formatted
line per selected frame, with its enumeration index and the selection count. -/
def tbFrameLines (self : TracebackPrinter) (tb : List StackFrame)
    (highlight : Option String) : List String :=
  (self.tbRange tb).mapIdx (fun i r =>
    self.format_traceback r.path r.line r.fn r.text i (self.tbRange tb).length highlight)

/-- Embeds `_get_traceback(tb, highlight)`: filter, slice, render each frame,
join with newlines and strip, then attach the (optionally colored)
`"Traceback:"` header via `"\n\n{indent}{title}\n{indent}{tb}"`. -/
def get_traceback (self : TracebackPrinter) (tb : List StackFrame)
    (highlight : Option String) : String :=
  let tb_data := pyStrip (String.intercalate "\n" (self.tbFrameLines tb highlight))
  let title := "Traceback:"
  let title :=
    if self.supports_ansi then color title (some self.color_tb) true false
    else title
  "\n\n" ++ self.indent ++ title ++ "\n" ++ self.indent ++ tb_data

/-- Embeds `__call__(title, *texts, highlight=..., tb=...)`: colors the title
when ANSI is supported, joins indented body lines, renders the trail when the
trail is truthy (non-`None`, non-empty), and composes
`"\n\n{indent}{title}{info}{tb}\n"`. -/
def call (self : TracebackPrinter) (title : String) (texts : List String)
    (highlight : Option String) (tb : List StackFrame) : String :=
  let title :=
    if self.supports_ansi then color title (some self.color_error) true false
    else title
  let info :=
    if texts.isEmpty then ""
    else "\n" ++ String.intercalate "\n" (texts.map (fun t => self.indent ++ t))
  let tbStr := if tb.isEmpty then "" else self.get_traceback tb highlight
  "\n\n" ++ self.indent ++ title ++ info ++ tbStr ++ "\n"

/-- State-passing form of one `__call__` invocation: the method body contains
no assignment to `self`, so the post-state is the unchanged configuration
paired with the returned string. -/
def callSt (self : TracebackPrinter) (title : String) (texts : List String)
    (highlight : Option String) (tb : List StackFrame) :
    TracebackPrinter × String :=
  (self, self.call title texts highlight tb)

/-- Spec-side mirror (for the no-ANSI refinement claim): "With color disabled
(no ANSI support) ... title/function/path appear as plain text equal to their
inputs" — the user-error line with the plain marker, no color wrapping and no
highlight replacement. -/
def plain_user_error (self : TracebackPrinter) (text : String) (i : Nat) : String :=
  "\n" ++ self.indent ++ "  " ++ (strRepeat "  " i ++ " >>>") ++ " " ++ text

/-- Spec-side mirror of one frame line with no color wrapping: connector,
function name, line number and (shortened) path rendered verbatim. -/
def plain_format_traceback (self : TracebackPrinter) (path : String) (line : Nat)
    (fn text : String) (i count : Nat) : String :=
  self.indent ++ ((if i == count - 1 then LINE_EDGE else LINE_FORK) ++ strRepeat LINE_PATH i) ++
    " " ++ fn ++ " [" ++ to_string line ++ "] in " ++ shortenPath self.tb_base path ++
    (if i == count - 1 then plain_user_error self text i else "")

/-- Spec-side mirror of the trail block with the plain `"Traceback:"` header
and plain frame lines. -/
def plain_get_traceback (self : TracebackPrinter) (tb : List StackFrame) : String :=
  "\n\n" ++ self.indent ++ "Traceback:" ++ "\n" ++ self.indent ++
    pyStrip (String.intercalate "\n" ((self.tbRange tb).mapIdx (fun i r =>
      plain_format_traceback self r.path r.line r.fn r.text i (self.tbRange tb).length)))

/-- Spec-side mirror of a whole render with no escape sequences anywhere. -/
def plain_call (self : TracebackPrinter) (title : String) (texts : List String)
    (tb : List StackFrame) : String :=
  "\n\n" ++ self.indent ++ title ++
    (if texts.isEmpty then ""
     else "\n" ++ String.intercalate "\n" (texts.map (fun t => self.indent ++ t))) ++
    (if tb.isEmpty then "" else plain_get_traceback self tb) ++ "\n"

end TracebackPrinter

/-- Sample no-ANSI configuration used to instantiate theorems on concrete
inputs. -/
def cfgPlain : TracebackPrinter :=
  TracebackPrinter.init "red" "blue" "yellow" 2 (some "thinc") ["util.py"] false

/-- Sample ANSI-enabled configuration used to instantiate theorems on concrete
inputs. -/
def cfgAnsi : TracebackPrinter :=
  TracebackPrinter.init "red" "blue" "yellow" 2 none [] true

/-- Sample five-frame trail used to instantiate theorems on concrete inputs. -/
def tbSample : List StackFrame :=
  [⟨"/a/one.py", 1, "f1", "t1"⟩, ⟨"/a/two.py", 2, "f2", "t2"⟩,
   ⟨"/lib/thinc/three.py", 3, "f3", "x bad y"⟩,
   ⟨"/a/util.py", 4, "f4", "t4"⟩, ⟨"/a/five.py", 5, "f5", "t5"⟩]

/-- Sample one-frame trail used to instantiate theorems on concrete inputs. -/
def tbShort : List StackFrame := [⟨"/a.py", 1, "f", "z"⟩]

/-!
Helper lemmas about the Python string primitives.
-/

theorem occursL_nil_left (s : List Char) : occursL [] s = true := by
  cases s with
  | nil => rfl
  | cons c rest => simp [occursL, List.isPrefixOf]

theorem occursL_append_right (sep u t : List Char) (h : occursL sep t = true) :
    occursL sep (u ++ t) = true := by
  induction u with
  | nil => simpa using h
  | cons c u' ih => simp [occursL, ih]

theorem occursL_append_left (sep u t : List Char) (h : occursL sep u = true) :
    occursL sep (u ++ t) = true := by
  induction u with
  | nil =>
    have hsep : sep = [] := List.isEmpty_iff.mp h
    subst hsep
    exact occursL_nil_left _
  | cons c u' ih =>
    rw [List.cons_append]
    simp only [occursL, Bool.or_eq_true] at h ⊢
    rcases h with h | h
    · exact Or.inl (List.isPrefixOf_iff_prefix.mpr
        ((List.isPrefixOf_iff_prefix.mp h).trans (List.prefix_append _ _)))
    · exact Or.inr (ih h)

theorem occursL_append_self (sep a b : List Char) :
    occursL sep (a ++ (sep ++ b)) = true := by
  apply occursL_append_right
  cases sep with
  | nil => exact occursL_nil_left _
  | cons c s' =>
    simp only [occursL, List.cons_append, Bool.or_eq_true]
    exact Or.inl (List.isPrefixOf_iff_prefix.mpr (List.prefix_append _ _))

theorem occursL_drop (sep : List Char) (k : Nat) (rest : List Char)
    (h : occursL sep rest = false) : occursL sep (rest.drop k) = false := by
  by_contra hc
  rw [Bool.not_eq_false] at hc
  have h2 : occursL sep (rest.take k ++ rest.drop k) = true :=
    occursL_append_right _ _ _ hc
  rw [List.take_append_drop] at h2
  rw [h] at h2
  exact Bool.false_ne_true h2

theorem afterLastAux_isSome (sep : List Char) (hsep : sep ≠ []) (s : List Char) :
    (afterLastAux sep s).isSome = occursL sep s := by
  induction s with
  | nil =>
    cases sep with
    | nil => exact absurd rfl hsep
    | cons c s' => rfl
  | cons c rest ih =>
    simp only [afterLastAux, occursL]
    cases hrec : afterLastAux sep rest with
    | some r =>
      rw [hrec] at ih
      simp only [Option.isSome_some] at ih
      simp [← ih]
    | none =>
      rw [hrec] at ih
      simp only [Option.isSome_none] at ih
      rw [← ih, Bool.or_false]
      cases hp : sep.isPrefixOf (c :: rest) with
      | false => simp [hp]
      | true => simp [hp]

theorem afterLastAux_spec (sep : List Char) (hsep : sep ≠ []) :
    ∀ s r : List Char, afterLastAux sep s = some r →
      (∃ a, s = a ++ (sep ++ r)) ∧ occursL sep r = false := by
  intro s
  induction s with
  | nil => intro r h; simp [afterLastAux] at h
  | cons c rest ih =>
    intro r h
    simp only [afterLastAux] at h
    cases hrec : afterLastAux sep rest with
    | some r' =>
      rw [hrec] at h
      have hr : r' = r := by injection h
      subst hr
      obtain ⟨⟨a, ha⟩, hocc⟩ := ih r' hrec
      exact ⟨⟨c :: a, by rw [List.cons_append, ← ha]⟩, hocc⟩
    | none =>
      rw [hrec] at h
      cases hp : sep.isPrefixOf (c :: rest) with
      | false => rw [hp] at h; simp at h
      | true =>
        rw [hp] at h
        simp only [if_pos] at h
        have hd : List.drop sep.length (c :: rest) = r := by injection h
        have hnone : occursL sep rest = false := by
          have hs := afterLastAux_isSome sep hsep rest
          rw [hrec] at hs
          exact hs.symm
        constructor
        · refine ⟨[], ?_⟩
          rw [List.nil_append, ← hd]
          obtain ⟨t, ht⟩ := List.isPrefixOf_iff_prefix.mp hp
          rw [← ht, List.drop_left]
        · rw [← hd]
          cases sep with
          | nil => exact absurd rfl hsep
          | cons a s' =>
            simp only [List.length_cons, List.drop_succ_cons]
            exact occursL_drop _ _ _ hnone

theorem replaceList_id (old new s : List Char) (h : occursL old s = false) :
    replaceList old new s = s := by
  induction s with
  | nil => simp [replaceList]
  | cons c rest ih =>
    simp only [occursL, Bool.or_eq_false_iff] at h
    rw [replaceList]
    simp [h.1, ih h.2]

theorem occursStr_append_right (sep s t : String) (h : occursStr sep t = true) :
    occursStr sep (s ++ t) = true :=
  occursL_append_right sep.toList s.toList t.toList h

theorem occursStr_append_left (sep s t : String) (h : occursStr sep s = true) :
    occursStr sep (s ++ t) = true :=
  occursL_append_left sep.toList s.toList t.toList h

theorem occursStr_append_marker (sep a : String) : occursStr sep (a ++ sep) = true := by
  have h := occursL_append_self sep.toList a.toList []
  rw [List.append_nil] at h
  exact h

/-!
The claims.
-/

/-- C1: for every trail whose filtered sequence has length `L`, the number of
rendered frame lines equals `max(0, min(3, L-2))`, and the selected frames are
exactly those of the filtered sequence at the `[-5,-2)` window, oldest-first:
the `j`-th selected frame is the filtered frame at index `max(0, L-5) + j`. -/
theorem tb_window_count_and_selection (self : TracebackPrinter)
    (tb : List StackFrame) (highlight : Option String) :
    (((self.tbFrameLines tb highlight).length : Int) =
      max 0 (min 3 (((self.tbFiltered tb).length : Int) - 2))) ∧
    (∀ j, j < (self.tbRange tb).length →
      (self.tbRange tb)[j]? =
        (self.tbFiltered tb)[(self.tbFiltered tb).length - 5 + j]?) := by
  constructor
  · simp only [TracebackPrinter.tbFrameLines, List.length_mapIdx,
      TracebackPrinter.tbRange, pySliceNeg, List.length_take, List.length_drop]
    omega
  · intro j hj
    simp only [TracebackPrinter.tbRange, pySliceNeg] at hj ⊢
    simp only [List.length_take, List.length_drop] at hj
    rw [List.getElem?_take, List.getElem?_drop, if_pos (by omega)]

/-- C1 witness: on a concrete five-frame trail with one excluded frame
(filtered length 4), the count formula gives 2 and the selection starts at
filtered index 0. -/
theorem tb_window_count_and_selection_w :
    (((cfgPlain.tbFrameLines tbSample none).length : Int) =
      max 0 (min 3 (((cfgPlain.tbFiltered tbSample).length : Int) - 2))) ∧
    ((cfgPlain.tbRange tbSample)[0]? =
      (cfgPlain.tbFiltered tbSample)[(cfgPlain.tbFiltered tbSample).length - 5 + 0]?) :=
  ⟨(tb_window_count_and_selection cfgPlain tbSample none).1,
   (tb_window_count_and_selection cfgPlain tbSample none).2 0 (by decide)⟩

/-- C2: with a non-empty excluded-suffix sequence, no frame whose path ends
with an excluded suffix is among the selected (rendered) frames: the filter
runs before the `[-5,-2)` window is taken. -/
theorem tb_excluded_never_selected (self : TracebackPrinter)
    (tb : List StackFrame) (r : StackFrame) (hex : self.tb_exclude ≠ [])
    (hr : r ∈ self.tbRange tb) :
    endsWithAny r.path self.tb_exclude = false := by
  have h1 : r ∈ self.tbFiltered tb := by
    simp only [TracebackPrinter.tbRange, pySliceNeg] at hr
    exact List.mem_of_mem_drop (List.mem_of_mem_take hr)
  have h2 := (List.mem_filter.mp h1).2
  simpa using h2

/-- C2 witness: the concrete excluded configuration and trail, with the first
selected frame. -/
theorem tb_excluded_never_selected_w :
    (cfgPlain.tb_exclude ≠ [] ∧ (⟨"/a/one.py", 1, "f1", "t1"⟩ : StackFrame) ∈ cfgPlain.tbRange tbSample) ∧
    endsWithAny (StackFrame.path ⟨"/a/one.py", 1, "f1", "t1"⟩) cfgPlain.tb_exclude = false :=
  ⟨⟨by decide, by decide⟩,
   tb_excluded_never_selected cfgPlain tbSample ⟨"/a/one.py", 1, "f1", "t1"⟩ (by decide) (by decide)⟩

/-- C3: the connector glyph of the selected frame at position `i` of `count`
is `(LINE_EDGE if i == count-1 else LINE_FORK)` followed by `LINE_PATH`
repeated `i` times, directly after the base indent. -/
theorem connector_glyph (self : TracebackPrinter) (path : String) (line : Nat)
    (fn text : String) (i count : Nat) (highlight : Option String)
    (hic : i < count) :
    ∃ rest, self.format_traceback path line fn text i count highlight =
      self.indent ++ ((if i == count - 1 then LINE_EDGE else LINE_FORK) ++
        strRepeat LINE_PATH i) ++ " " ++ rest := by
  refine ⟨(if self.supports_ansi then color fn none true false else fn) ++ " [" ++
    to_string line ++ "] in " ++
    (if self.supports_ansi then color (shortenPath self.tb_base path) none false true
     else shortenPath self.tb_base path) ++
    (if i == count - 1 then self.format_user_error text i highlight else ""), ?_⟩
  simp only [TracebackPrinter.format_traceback]
  simp [String.append_assoc]

/-- C3 witness: concrete frame at position 0 of 1. -/
theorem connector_glyph_w :
    (0 < 1) ∧
    ∃ rest, cfgPlain.format_traceback "/a.py" 7 "f" "t" 0 1 none =
      cfgPlain.indent ++ ((if 0 == 1 - 1 then LINE_EDGE else LINE_FORK) ++
        strRepeat LINE_PATH 0) ++ " " ++ rest :=
  ⟨by decide, connector_glyph cfgPlain "/a.py" 7 "f" "t" 0 1 none (by decide)⟩

/-- C6: every returned string begins and ends with a blank line: the output is
`"\n\n" ++ middle ++ "\n"` for some `middle`. -/
theorem call_blank_framed (self : TracebackPrinter) (title : String)
    (texts : List String) (highlight : Option String) (tb : List StackFrame) :
    ∃ s, self.call title texts highlight tb = "\n\n" ++ s ++ "\n" := by
  refine ⟨self.indent ++
    (if self.supports_ansi then color title (some self.color_error) true false else title) ++
    (if texts.isEmpty then ""
     else "\n" ++ String.intercalate "\n" (texts.map (fun t => self.indent ++ t))) ++
    (if tb.isEmpty then "" else self.get_traceback tb highlight), ?_⟩
  simp only [TracebackPrinter.call]
  simp [String.append_assoc]

/-- C9: invocation is pure and stateless: the post-state configuration equals
the pre-state one, and a second invocation from the post-state returns the
identical string. -/
theorem call_pure_stable (self : TracebackPrinter) (title : String)
    (texts : List String) (highlight : Option String) (tb : List StackFrame) :
    ((self.callSt title texts highlight tb).1.callSt title texts highlight tb).2 =
      (self.callSt title texts highlight tb).2 ∧
    (self.callSt title texts highlight tb).1 = self ∧
    ((self.callSt title texts highlight tb).1.callSt title texts highlight tb).1 = self :=
  ⟨rfl, rfl, rfl⟩

theorem occursStr_user_error (self : TracebackPrinter) (text : String) (i : Nat)
    (highlight : Option String) :
    occursStr " >>>" (self.format_user_error text i highlight) = true := by
  simp only [TracebackPrinter.format_user_error]
  apply occursStr_append_left
  apply occursStr_append_left
  apply occursStr_append_right
  cases hansi : self.supports_ansi with
  | false =>
    simp only [hansi, Bool.false_eq_true, if_false]
    exact occursStr_append_marker " >>>" (strRepeat "  " i)
  | true =>
    simp only [hansi, if_true]
    simp only [color]
    apply occursStr_append_left
    apply occursStr_append_right
    exact occursStr_append_marker " >>>" (strRepeat "  " i)

/-- C4: among `count` selected frames, a frame line at position `i ≠ count-1`
is rendered with empty trailing text (the template ends right after the path),
while the line at `i = count-1` ends with the trailing block
`"\n" ++ indent ++ "  " ++ marker ++ " " ++ sourceText`: the `" >>>"` marker
(colored when ANSI is on) followed by the frame's source text, optionally
highlighted, and the line contains the `" >>>"` marker. -/
theorem marker_only_last (self : TracebackPrinter) (path : String) (line : Nat)
    (fn text : String) (i count : Nat) (highlight : Option String)
    (hic : i < count) :
    (i ≠ count - 1 →
      self.format_traceback path line fn text i count highlight =
        self.indent ++ (LINE_FORK ++ strRepeat LINE_PATH i) ++ " " ++
          (if self.supports_ansi then color fn none true false else fn) ++ " [" ++
          to_string line ++ "] in " ++
          (if self.supports_ansi then color (shortenPath self.tb_base path) none false true
           else shortenPath self.tb_base path)) ∧
    (i = count - 1 →
      self.format_traceback path line fn text i count highlight =
        self.indent ++ (LINE_EDGE ++ strRepeat LINE_PATH i) ++ " " ++
          (if self.supports_ansi then color fn none true false else fn) ++ " [" ++
          to_string line ++ "] in " ++
          (if self.supports_ansi then color (shortenPath self.tb_base path) none false true
           else shortenPath self.tb_base path) ++
          ("\n" ++ self.indent ++ "  " ++
            (if self.supports_ansi then
              color (strRepeat "  " i ++ " >>>") (some self.color_error) false false
             else strRepeat "  " i ++ " >>>") ++ " " ++
            (match highlight with
             | some h =>
               if !(h == "") && self.supports_ansi then
                 pyReplace text h (color h (some self.color_highlight) false false)
               else text
             | none => text)) ∧
      occursStr " >>>" (self.format_traceback path line fn text i count highlight) = true) := by
  constructor
  · intro hne
    have hb : (i == count - 1) = false := beq_eq_false_iff_ne.mpr hne
    simp only [TracebackPrinter.format_traceback, hb, Bool.false_eq_true, if_false]
    simp [String.append_assoc]
  · intro heq
    have hb : (i == count - 1) = true := by simp [heq]
    constructor
    · simp only [TracebackPrinter.format_traceback, TracebackPrinter.format_user_error,
        hb, if_true, String.append_assoc]
    · simp only [TracebackPrinter.format_traceback, hb, if_true]
      apply occursStr_append_right
      exact occursStr_user_error self text i highlight

/-- C4 witness: concrete frames at positions 0 and 1 of 2 (the instantiation
at position 1, whose line carries the marker). -/
theorem marker_only_last_w :
    (1 < 2) ∧
    ((1 ≠ 2 - 1 →
      cfgPlain.format_traceback "/a.py" 3 "f" "t" 1 2 none =
        cfgPlain.indent ++ (LINE_FORK ++ strRepeat LINE_PATH 1) ++ " " ++
          (if cfgPlain.supports_ansi then color "f" none true false else "f") ++ " [" ++
          to_string 3 ++ "] in " ++
          (if cfgPlain.supports_ansi then color (shortenPath cfgPlain.tb_base "/a.py") none false true
           else shortenPath cfgPlain.tb_base "/a.py")) ∧
    (1 = 2 - 1 →
      cfgPlain.format_traceback "/a.py" 3 "f" "t" 1 2 none =
        cfgPlain.indent ++ (LINE_EDGE ++ strRepeat LINE_PATH 1) ++ " " ++
          (if cfgPlain.supports_ansi then color "f" none true false else "f") ++ " [" ++
          to_string 3 ++ "] in " ++
          (if cfgPlain.supports_ansi then color (shortenPath cfgPlain.tb_base "/a.py") none false true
           else shortenPath cfgPlain.tb_base "/a.py") ++
          ("\n" ++ cfgPlain.indent ++ "  " ++
            (if cfgPlain.supports_ansi then
              color (strRepeat "  " 1 ++ " >>>") (some cfgPlain.color_error) false false
             else strRepeat "  " 1 ++ " >>>") ++ " " ++ "t") ∧
      occursStr " >>>" (cfgPlain.format_traceback "/a.py" 3 "f" "t" 1 2 none) = true)) :=
  ⟨by decide, marker_only_last cfgPlain "/a.py" 3 "f" "t" 1 2 none (by decide)⟩

/-- C5: with a configured base-path marker name, the stored marker is
`"/" ++ name ++ "/"`, and a selected frame path containing the marker is
rendered as the part after the marker's LAST occurrence: the path splits as
`a ++ marker ++ rendered` with no further occurrence of the marker inside
`rendered`. -/
theorem base_path_last_occurrence (ce ct ch : String) (ind : Nat) (name : String)
    (excl : List String) (ansi : Bool) (path : String) (hname : name ≠ "")
    (hocc : occursStr ("/" ++ name ++ "/") path = true) :
    (TracebackPrinter.init ce ct ch ind (some name) excl ansi).tb_base =
      some ("/" ++ name ++ "/") ∧
    (∃ a : List Char,
      path.toList = a ++ (("/" ++ name ++ "/").toList ++
        (shortenPath (some ("/" ++ name ++ "/")) path).toList)) ∧
    occursL ("/" ++ name ++ "/").toList
      ((shortenPath (some ("/" ++ name ++ "/")) path).toList) = false := by
  have hnb : (name == "") = false := beq_eq_false_iff_ne.mpr hname
  have hml : ("/" ++ name ++ "/").toList ≠ [] := by
    have hform : ("/" ++ name ++ "/").toList = '/' :: (name.toList ++ ['/']) := rfl
    rw [hform]
    exact List.cons_ne_nil _ _
  have hm : (("/" ++ name ++ "/") == "") = false := by
    apply beq_eq_false_iff_ne.mpr
    intro hcon
    exact hml (by rw [hcon]; rfl)
  have hocc2 : occursL ("/" ++ name ++ "/").toList path.toList = true := hocc
  have hisSome := afterLastAux_isSome ("/" ++ name ++ "/").toList hml path.toList
  rw [hocc2] at hisSome
  obtain ⟨r, hr⟩ := Option.isSome_iff_exists.mp hisSome
  have hsp : shortenPath (some ("/" ++ name ++ "/")) path = r.asString := by
    simp only [shortenPath, hm, hocc, Bool.not_false, Bool.and_self, if_true,
      afterLastStr, hr]
  obtain ⟨⟨a, ha⟩, hno⟩ :=
    afterLastAux_spec ("/" ++ name ++ "/").toList hml path.toList r hr
  refine ⟨?_, ?_, ?_⟩
  · simp [TracebackPrinter.init, hnb]
  · refine ⟨a, ?_⟩
    rw [hsp]
    exact ha
  · rw [hsp]
    exact hno

/-- C5 witness: marker name `"thinc"` and frame path
`"/usr/lib/thinc/errors.py"`; also checks the rendered path is exactly
`"errors.py"`. -/
theorem base_path_last_occurrence_w :
    ("thinc" ≠ "" ∧ occursStr ("/" ++ "thinc" ++ "/") "/usr/lib/thinc/errors.py" = true) ∧
    shortenPath (some ("/" ++ "thinc" ++ "/")) "/usr/lib/thinc/errors.py" = "errors.py" ∧
    ((TracebackPrinter.init "red" "blue" "yellow" 2 (some "thinc") [] false).tb_base =
      some ("/" ++ "thinc" ++ "/") ∧
    (∃ a : List Char,
      ("/usr/lib/thinc/errors.py" : String).toList = a ++ (("/" ++ "thinc" ++ "/").toList ++
        (shortenPath (some ("/" ++ "thinc" ++ "/")) "/usr/lib/thinc/errors.py").toList)) ∧
    occursL ("/" ++ "thinc" ++ "/").toList
      ((shortenPath (some ("/" ++ "thinc" ++ "/")) "/usr/lib/thinc/errors.py").toList) = false) :=
  ⟨⟨by decide, by decide⟩, by decide,
   base_path_last_occurrence "red" "blue" "yellow" 2 "thinc" [] false
     "/usr/lib/thinc/errors.py" (by decide) (by decide)⟩

/-- C7: when the cached ANSI-support flag is false, the whole render equals
the plain rendering: no color or style wrapping anywhere, the title, function
names, paths and the `" >>>"` marker appear verbatim, and the highlight is
never applied. -/
theorem no_ansi_renders_plain (self : TracebackPrinter)
    (hansi : self.supports_ansi = false) (title : String) (texts : List String)
    (highlight : Option String) (tb : List StackFrame) :
    self.call title texts highlight tb = self.plain_call title texts tb := by
  have hue : ∀ text i, self.format_user_error text i highlight =
      self.plain_user_error text i := by
    intro text i
    cases highlight with
    | none =>
      simp [TracebackPrinter.format_user_error, TracebackPrinter.plain_user_error, hansi]
    | some h =>
      simp [TracebackPrinter.format_user_error, TracebackPrinter.plain_user_error, hansi]
  have hft : ∀ path line fn text i count,
      self.format_traceback path line fn text i count highlight =
        self.plain_format_traceback path line fn text i count := by
    intro path line fn text i count
    simp [TracebackPrinter.format_traceback, TracebackPrinter.plain_format_traceback,
      hansi, hue]
  have hgt : self.get_traceback tb highlight = self.plain_get_traceback tb := by
    simp [TracebackPrinter.get_traceback, TracebackPrinter.plain_get_traceback,
      TracebackPrinter.tbFrameLines, hansi, hft]
  simp [TracebackPrinter.call, TracebackPrinter.plain_call, hansi, hgt]

/-- C7 witness: the concrete no-ANSI configuration on the sample trail. -/
theorem no_ansi_renders_plain_w :
    cfgPlain.supports_ansi = false ∧
    cfgPlain.call "Title" ["body"] (some "bad") tbSample =
      cfgPlain.plain_call "Title" ["body"] tbSample :=
  ⟨rfl, no_ansi_renders_plain cfgPlain rfl "Title" ["body"] (some "bad") tbSample⟩

/-- C8: with ANSI support and a non-empty highlight, the innermost frame's
source text is rendered with every occurrence of the highlight replaced by its
color-wrapped form (plain substring replacement), and when the highlight does
not occur the text is left unchanged. -/
theorem highlight_replaces_all (self : TracebackPrinter) (text : String)
    (i : Nat) (h : String) (hansi : self.supports_ansi = true) (hh : h ≠ "") :
    self.format_user_error text i (some h) =
      "\n" ++ self.indent ++ "  " ++
        color (strRepeat "  " i ++ " >>>") (some self.color_error) false false ++ " " ++
        pyReplace text h (color h (some self.color_highlight) false false) ∧
    (occursStr h text = false →
      pyReplace text h (color h (some self.color_highlight) false false) = text) := by
  have hb : (h == "") = false := beq_eq_false_iff_ne.mpr hh
  constructor
  · simp [TracebackPrinter.format_user_error, hansi, hb]
  · intro hno
    simp only [pyReplace]
    rw [replaceList_id _ _ _ hno]
    rfl

/-- C8 witness: ANSI configuration, text `"z bad w"`, highlight `"bad"`. -/
theorem highlight_replaces_all_w :
    (cfgAnsi.supports_ansi = true ∧ "bad" ≠ "") ∧
    (cfgAnsi.format_user_error "z bad w" 1 (some "bad") =
      "\n" ++ cfgAnsi.indent ++ "  " ++
        color (strRepeat "  " 1 ++ " >>>") (some cfgAnsi.color_error) false false ++ " " ++
        pyReplace "z bad w" "bad" (color "bad" (some cfgAnsi.color_highlight) false false) ∧
    (occursStr "bad" "z bad w" = false →
      pyReplace "z bad w" "bad" (color "bad" (some cfgAnsi.color_highlight) false false) =
        "z bad w")) :=
  ⟨⟨rfl, by decide⟩, highlight_replaces_all cfgAnsi "z bad w" 1 "bad" rfl (by decide)⟩

/-- C10: with a non-empty trail whose filtered sequence has length at most 2,
no frame line is rendered, yet the output still contains the trail block: the
`"Traceback:"` header line followed by a line that is exactly the indent
string. -/
theorem empty_window_keeps_block (self : TracebackPrinter) (title : String)
    (texts : List String) (highlight : Option String) (tb : List StackFrame)
    (htb : tb ≠ []) (hlen : (self.tbFiltered tb).length ≤ 2) :
    self.tbFrameLines tb highlight = [] ∧
    self.get_traceback tb highlight =
      "\n\n" ++ self.indent ++
        (if self.supports_ansi then color "Traceback:" (some self.color_tb) true false
         else "Traceback:") ++ "\n" ++ self.indent ∧
    self.call title texts highlight tb =
      "\n\n" ++ self.indent ++
        (if self.supports_ansi then color title (some self.color_error) true false
         else title) ++
        (if texts.isEmpty then ""
         else "\n" ++ String.intercalate "\n" (texts.map (fun t => self.indent ++ t))) ++
        self.get_traceback tb highlight ++ "\n" := by
  have hrange : self.tbRange tb = [] := by
    simp only [TracebackPrinter.tbRange, pySliceNeg]
    have hz : (self.tbFiltered tb).length - 2 - ((self.tbFiltered tb).length - 5) = 0 := by
      omega
    rw [hz, List.take_zero]
  have hfl : self.tbFrameLines tb highlight = [] := by
    simp [TracebackPrinter.tbFrameLines, hrange]
  have hdata : pyStrip (String.intercalate "\n" ([] : List String)) = "" := rfl
  have hne : tb.isEmpty = false := by
    cases tb with
    | nil => exact absurd rfl htb
    | cons a l => rfl
  refine ⟨hfl, ?_, ?_⟩
  · rw [TracebackPrinter.get_traceback, hfl, hdata, String.append_empty]
  · simp [TracebackPrinter.call, hne]

/-- C10 witness: concrete one-frame trail (filtered length 1). -/
theorem empty_window_keeps_block_w :
    (tbShort ≠ [] ∧ (cfgPlain.tbFiltered tbShort).length ≤ 2) ∧
    (cfgPlain.tbFrameLines tbShort none = [] ∧
    cfgPlain.get_traceback tbShort none =
      "\n\n" ++ cfgPlain.indent ++
        (if cfgPlain.supports_ansi then color "Traceback:" (some cfgPlain.color_tb) true false
         else "Traceback:") ++ "\n" ++ cfgPlain.indent ∧
    cfgPlain.call "T" ["b1"] none tbShort =
      "\n\n" ++ cfgPlain.indent ++
        (if cfgPlain.supports_ansi then color "T" (some cfgPlain.color_error) true false
         else "T") ++
        (if (["b1"] : List String).isEmpty then ""
         else "\n" ++ String.intercalate "\n" ((["b1"] : List String).map (fun t => cfgPlain.indent ++ t))) ++
        cfgPlain.get_traceback tbShort none ++ "\n") :=
  ⟨⟨by decide, by decide⟩,
   empty_window_keeps_block cfgPlain "T" ["b1"] none tbShort (by decide) (by decide)⟩
